import Mathlib

/-
Formal model of the double-entry accounting engine of the
django-simple-accounting repository.

The development shallowly embeds the two Django apps of the repository:

* namespace `Accounting` models the older `accounting` app, in particular
  path-based account lookup (`accounting/utils.py`) and the `path`
  property of `accounting/models.py`;
* namespace `SimpleAccounting` models the `simple_accounting` app: the
  account/flow/split/transaction data model with its `clean` validators,
  the ledger-entry numbering scheme, the account-system navigation
  helpers, and the four posting factory functions of
  `simple_accounting/utils.py`.

Database rows are plain Lean structures collected in explicit state
records; monetary amounts (Django `CurrencyField`, a `Decimal` with
`decimal_places=4`) are modelled as integers counting units of
`10 ^ (-4)` — exactly the value grid of that field, on which addition
and negation are exact; Python exceptions are
modelled by the `PyErr` type, and fallible code returns `Except PyErr`.
Where a Python statement is guaranteed to raise for a reason visible in
the source itself (for example an attribute read that no class in the
file defines), the model raises the corresponding `PyErr` at the same
program point, and the doc comment of the definition records the exact
source line being modelled.
-/

set_option autoImplicit false

/-- Python exceptions relevant to the engine, including the custom
exception classes of `simple_accounting/exceptions.py` and the built-in
exceptions that the code can raise. -/
inductive PyErr where
  /-- Built-in `ValueError` (malformed path strings, `max` of an empty
  sequence, and similar). -/
  | valueError
  /-- Django `Account.DoesNotExist`, raised by failed ORM lookups. -/
  | doesNotExist
  /-- Built-in `AttributeError`, carrying the missing attribute name. -/
  | attributeError (attr : String)
  /-- Built-in `TypeError` (for example calling a property object). -/
  | typeError
  /-- Django `ValidationError`, raised by the `clean` validators. -/
  | validationError
  /-- Built-in `NameError`, carrying the unresolved name. -/
  | nameError (name : String)
  /-- Built-in `ImportError`, raised when a from-import names a symbol
  that the target module does not define. -/
  | moduleImportError
  /-- `simple_accounting.exceptions.MalformedAccountTree`. -/
  | malformedAccountTree
  /-- `simple_accounting.exceptions.MalformedTransaction`. -/
  | malformedTransaction
  /-- `simple_accounting.exceptions.InvalidAccountingOperation`. -/
  | invalidAccountingOperation
  /-- Built-in `IndexError` (out-of-range sequence subscript). -/
  | indexError
deriving DecidableEq, Repr

namespace Accounting

/-- Path separator between account-tree components (`consts.py`): the
project default `"/"`. -/
def ACCOUNT_PATH_SEPARATOR : String := "/"

/-- A row of the `Account` model of the `accounting` app, restricted to
the columns used by tree navigation: primary key, parent foreign key and
name. -/
structure Account where
  id : Nat
  parent : Option Nat
  name : String
deriving DecidableEq, Repr

/-- `Account.is_root` (`accounting/models.py` 236-240): an account is a
root iff its `parent` foreign key is null. -/
def Account.is_root (a : Account) : Bool := a.parent == none

/-- `Account.get_child` (`accounting/models.py` 249-256):
`Account.objects.get(parent=self, name=name)`; the pair `(parent, name)`
is unique together, so the lookup returns the unique matching row or
raises `Account.DoesNotExist`. -/
def Account.get_child (db : List Account) (a : Account) (name : String) :
    Except PyErr Account :=
  match db.find? (fun c => c.parent == some a.id && c.name == name) with
  | some c => Except.ok c
  | none => Except.error PyErr.doesNotExist

/-- Python `str.strip` with no argument: drop leading and trailing
whitespace characters. -/
def pyStrip (s : String) : String :=
  String.mk (((s.toList.dropWhile Char.isWhitespace).reverse.dropWhile
      Char.isWhitespace).reverse)

/-- Python `str.split` on a single-character separator: the list of
chunks between separator occurrences, keeping empty chunks (so the
result always has one more element than there are separators). -/
def pySplitCharList (sep : Char) : List Char → List (List Char)
  | [] => [[]]
  | c :: cs =>
      let rest := pySplitCharList sep cs
      if c == sep then [] :: rest
      else
        match rest with
        | [] => [[c]]
        | p :: ps => (c :: p) :: ps

/-- Python `str.split` on a single-character separator, on strings. -/
def pySplitChar (sep : Char) (s : String) : List String :=
  (pySplitCharList sep s.toList).map String.mk

/-- Python `str.startswith`. -/
def pyStartsWith (pre s : String) : Bool :=
  List.isPrefixOf pre.toList s.toList

/-- Python `str.endswith`. -/
def pyEndsWith (suf s : String) : Bool :=
  List.isSuffixOf suf.toList s.toList

/-- `_validate_account_path` (`accounting/utils.py` 24-28): reject a path
that does not start with the separator, or that ends with the separator
while being longer than the bare separator.  Note that the check does not
reject consecutive separator occurrences in the middle of the path. -/
def _validate_account_path (path : String) : Except PyErr Unit :=
  if !(pyStartsWith ACCOUNT_PATH_SEPARATOR path) then
    Except.error PyErr.valueError
  else if pyEndsWith ACCOUNT_PATH_SEPARATOR path
      && path.toList.length > ACCOUNT_PATH_SEPARATOR.toList.length then
    Except.error PyErr.valueError
  else
    Except.ok ()

/-- Recursive tail of `get_account_from_path` (`accounting/utils.py`
31-60), expressed over the component list.  In the source the recursive
call rebuilds a string with `ACCOUNT_PATH_SEPARATOR.join` and re-splits
it, which round-trips to exactly the remaining components, and the
`root.is_root` guard of the callee is always false for a child obtained
from `get_child` (its parent is set), so recursing on the component list
is equivalent.  The source line 60 reads
`get_account_from_path(subpath, child)` with no `return`: the result of
the recursive call is discarded and the function falls through returning
`None`, here `Option.none`.  Exceptions raised inside the recursion still
propagate.  An empty component list would make `path_components[0]`
raise `IndexError`; the wrapper never produces it for inputs that pass
validation. -/
def walk_path (db : List Account) : Account → List String → Except PyErr (Option Account)
  | _, [] => Except.error PyErr.indexError
  | a, [c] => do
      let child ← Account.get_child db a c
      return some child
  | a, c :: c2 :: rest => do
      let child ← Account.get_child db a c
      let _ ← walk_path db child (c2 :: rest)
      return none

/-- `get_account_from_path` (`accounting/utils.py` 31-60): strip
surrounding whitespace, split on the separator, validate the syntax when
the given start account is a root, answer the bare separator with the
root itself, and otherwise walk child by child via `walk_path`. -/
def get_account_from_path (db : List Account) (path : String) (root : Account) :
    Except PyErr (Option Account) :=
  let path := pyStrip path
  let path_components := pySplitChar '/' path
  if root.is_root then
    match _validate_account_path path with
    | Except.error e => Except.error e
    | Except.ok () =>
        if path == ACCOUNT_PATH_SEPARATOR then
          Except.ok (some root)
        else
          walk_path db root (path_components.drop 1)
  else
    walk_path db root path_components

/-- `Account.path` (`accounting/models.py` 224-233, identical in
`simple_accounting/models.py` 485-494).  The root branch returns the bare
separator.  The non-root branch evaluates `Account.path(self.parent)`:
`path` is decorated with `@property`, so the class attribute
`Account.path` is the property object itself, and calling it raises
`TypeError` (property objects are not callable).  Hence reading `path`
on every non-root account raises `TypeError` before any recursion. -/
def Account.path (a : Account) : Except PyErr String :=
  if a.is_root then Except.ok ACCOUNT_PATH_SEPARATOR
  else Except.error PyErr.typeError

end Accounting

namespace SimpleAccounting

/-- The five basic account types of `AccountType`
(`simple_accounting/models.py` 204-214). -/
inductive BaseType where
  | root
  | income
  | expense
  | asset
  | liability
deriving DecidableEq, Repr

/-- `AccountType.is_stock` (`models.py` 219-225): stock-like types are
`ASSET` and `LIABILITY`. -/
def BaseType.is_stock : BaseType → Bool
  | BaseType.asset => true
  | BaseType.liability => true
  | _ => false

/-- `AccountType.is_flux` (`models.py` 227-233): flux-like types are
`INCOME` and `EXPENSE`. -/
def BaseType.is_flux : BaseType → Bool
  | BaseType.income => true
  | BaseType.expense => true
  | _ => false

/-- A row of the `Account` model (`models.py` 419-439): owning system,
parent foreign key, name, basic type of its `kind`, and the
`is_placeholder` flag. -/
structure Account where
  id : Nat
  system : Nat
  parent : Option Nat
  name : String
  kind : BaseType
  is_placeholder : Bool
deriving DecidableEq, Repr

/-- `Account.is_stock` (`models.py` 450-456). -/
def Account.is_stock (a : Account) : Bool := a.kind.is_stock

/-- `Account.is_flux` (`models.py` 458-464). -/
def Account.is_flux (a : Account) : Bool := a.kind.is_flux

/-- `Account.is_root` (`models.py` 496-501). -/
def Account.is_root (a : Account) : Bool := a.parent == none

/-- A row of the `CashFlow` model (`models.py` 600-619): a signed amount
tied to one account.  The account is embedded by value, as posting only
reads it. -/
structure CashFlow where
  id : Nat
  account : Account
  amount : Int
deriving DecidableEq, Repr

/-- `CashFlow.system` (`models.py` 629-631). -/
def CashFlow.system (f : CashFlow) : Nat := f.account.system

/-- `CashFlow.clean` (`models.py` 633-637).  The body evaluates
`self.is_stock`, but the `CashFlow` class defines no attribute
`is_stock` (only `is_incoming`, `is_outgoing` and `system`; the intended
read was presumably `self.account.is_stock`), so the attribute lookup
raises `AttributeError` before the stock-likeness test can run.  Since
`CashFlow.save` calls `full_clean`, every attempt to persist a cash flow
raises. -/
def CashFlow.clean (_f : CashFlow) : Except PyErr Unit :=
  Except.error (PyErr.attributeError "is_stock")

/-- A row of the `Split` model (`models.py` 645-682): optional entry and
exit waypoints and a target flow. -/
structure Split where
  id : Nat
  entry_point : Option Account
  exit_point : Option Account
  target : CashFlow
  description : String
deriving DecidableEq, Repr

/-- `Split.is_internal` (`models.py` 684-690): a split is internal iff
its exit point is null. -/
def Split.is_internal (s : Split) : Bool := s.exit_point == none

/-- `Split.amount` (`models.py` 699-704): the amount flowing through the
split is the negation of the target-flow amount. -/
def Split.amount (s : Split) : Int := - s.target.amount

/-- `Split.clean` (`models.py` 715-737).  After the null-status check,
the source dereferences `self.entry_point.is_flux` and
`self.exit_point.is_flux` unconditionally, so for an internal split
(both points null) the validator raises `AttributeError` on
`None.is_flux` instead of accepting the split. -/
def Split.clean (s : Split) : Except PyErr Unit := do
  if s.exit_point.isNone then
    if !s.entry_point.isNone then throw PyErr.validationError
  match s.entry_point with
  | none => throw (PyErr.attributeError "is_flux")
  | some ep => if !ep.is_flux then throw PyErr.validationError else pure ()
  match s.exit_point with
  | none => throw (PyErr.attributeError "is_flux")
  | some xp => if !xp.is_flux then throw PyErr.validationError else pure ()
  if !s.target.account.is_stock then throw PyErr.validationError
  match s.entry_point with
  | some ep =>
      if !(ep.system == s.target.system) then throw PyErr.validationError
      else pure ()
  | none => pure ()

/-- A row of the `Transaction` model (`models.py` 745-802) with its
many-to-many `split_set` materialised as the list of attached splits;
`issuer` is an opaque subject key and `date` is dropped (never examined
by the modelled logic). -/
structure Transaction where
  id : Nat
  description : String
  issuer : Nat
  source : CashFlow
  splits : List Split
  kind : Option String
  is_confirmed : Bool
deriving DecidableEq, Repr

/-- `Transaction.is_split` (`models.py` 808-815): more than one split. -/
def Transaction.is_split (t : Transaction) : Bool := t.splits.length > 1

/-- `Transaction.is_internal` (`models.py` 817-828): a flag starting
`True`, cleared by any non-internal split. -/
def Transaction.is_internal (t : Transaction) : Bool :=
  t.splits.foldl (fun internal split => if !split.is_internal then false else internal) true

/-- `Transaction.is_simple` (`models.py` 830-837): internal and not
split. -/
def Transaction.is_simple (t : Transaction) : Bool :=
  t.is_internal && !t.is_split

/-- Reading the many-to-many `split_set` of a transaction instance
(the `splits` property, `models.py` 804-806).  On a persisted row the
related manager returns the attached splits; on an instance that has no
primary key yet, constructing the related manager raises `ValueError`
(the instance needs a primary key before the many-to-many relationship
can be used). -/
def Transaction.read_split_set (saved : Bool) (t : Transaction) :
    Except PyErr (List Split) :=
  if saved then Except.ok t.splits else Except.error PyErr.valueError

/-- `Transaction.clean` (`models.py` 857-891), with `saved` recording
whether the instance has a primary key.  Four remarks on faithfulness:
(a) every access to `self.splits` goes through the many-to-many read;
its first occurrence, in the conservation loop, already raises
`ValueError` on a primary-key-less instance, so on the initial save of
a posting `clean` never gets past that read; (b) on a persisted row the
conservation check sums the source amount and the target amounts of the
attached splits; (c) the exit-point check reads
`split.exit_point.system` without a null guard, so any attached
internal split raises `AttributeError` on `None.system` (the
surrounding try only catches `AssertionError`); (d) the placeholder
check reads `account.placeholder`, but the `Account` model defines the
field `is_placeholder` and no attribute named `placeholder`, so the
first loop iteration raises `AttributeError` — `involved_accounts`
always starts with the source account, hence is never empty. -/
def Transaction.clean (saved : Bool) (t : Transaction) : Except PyErr Unit := do
  let splits ← Transaction.read_split_set saved t
  let flows := t.source :: splits.map (fun s => s.target)
  if !((flows.map (fun f => f.amount)).foldl (· + ·) 0 == 0) then
    throw PyErr.validationError
  for split in splits do
    match split.exit_point with
    | none => throw (PyErr.attributeError "system")
    | some xp =>
        if !(xp.system == t.source.system) then throw PyErr.validationError
        else pure ()
  if t.is_internal then
    for split in splits do
      if !(split.target.system == t.source.system) then
        throw PyErr.validationError
  let involved : List (Option Account) :=
    some t.source.account ::
      (splits.map (fun s => [s.exit_point, s.entry_point, some s.target.account])).flatten
  match involved with
  | [] => pure ()
  | _ :: _ => throw (PyErr.attributeError "placeholder")

/-- A row of the `LedgerEntry` model (`models.py` 944-978): account and
transaction foreign keys, the per-ledger serial `entry_id` (nullable
until assigned) and the amount.  `id` is the global primary key. -/
structure LedgerEntry where
  id : Nat
  account : Nat
  transaction : Nat
  entry_id : Option Nat
  amount : Int
deriving DecidableEq, Repr

/-- The persisted state of the `simple_accounting` app: one list per
modelled table. -/
structure DB where
  accounts : List Account
  flows : List CashFlow
  split_rows : List Split
  transactions : List Transaction
  entries : List LedgerEntry
deriving DecidableEq, Repr

/-- Fresh primary key for a table: one more than the largest key in use
(Django autoincrement, starting at 1). -/
def freshPk (ids : List Nat) : Nat := (ids.foldl Nat.max 0) + 1

/-- `Account.ledger_entries` (`models.py` 510-515): the entries written
against this account; the source orders them by descending transaction
date, which is irrelevant to the maximum and sum taken over them. -/
def Account.ledger_entries (db : DB) (a : Account) : List LedgerEntry :=
  db.entries.filter (fun e => e.account == a.id)

/-- `Account.balance` (`models.py` 473-483): sum of all ledger-entry
amounts for the account (the per-instance `_balance` memo only caches
within one instance lifetime and is dropped here). -/
def Account.balance (db : DB) (a : Account) : Int :=
  ((Account.ledger_entries db a).map (fun e => e.amount)).foldl (· + ·) 0

/-- Python `max` over a list of naturals: raises `ValueError` on an
empty sequence. -/
def pyMax : List Nat → Except PyErr Nat
  | [] => Except.error PyErr.valueError
  | x :: xs => Except.ok (xs.foldl Nat.max x)

/-- `LedgerEntry.next_entry_id_for_ledger` (`models.py` 1028-1034): the
source takes `max([entry.id for entry in existing_entries]) + 1` — the
maximum ranges over the global primary key `id`, not over `entry_id`,
and `max` of the empty sequence raises `ValueError` when the account has
no entries yet (there is no fallback to 1). -/
def LedgerEntry.next_entry_id_for_ledger (db : DB) (account : Account) :
    Except PyErr Nat := do
  let existing := Account.ledger_entries db account
  let m ← pyMax (existing.map (fun e => e.id))
  return m + 1

/-- Computation over the persisted state that may raise a Python
exception.  As in Python, raising keeps all writes performed so far:
the state survives an error (there is no rollback in the modelled
code). -/
abbrev PostM := ExceptT PyErr (StateM DB)

/-- Run a posting computation on a state, returning the outcome and the
final state. -/
def runPost {α : Type} (x : PostM α) (db : DB) : Except PyErr α × DB :=
  x.run.run db

/-- Lift an exception-or-value result into `PostM`. -/
def liftE {α : Type} : Except PyErr α → PostM α
  | Except.ok a => pure a
  | Except.error e => throw e

/-- `LedgerEntry.save` on a fresh row (`models.py` 1019-1026): assign
`entry_id` via `next_entry_id_for_ledger` (raising on an empty ledger),
run `full_clean` (the `clean` of `LedgerEntry` is a no-op) and insert
the row. -/
def LedgerEntry.create (account : Account) (transaction : Nat) (amount : Int) :
    PostM Unit := do
  let db ← get
  let nid ← liftE (LedgerEntry.next_entry_id_for_ledger db account)
  let e : LedgerEntry :=
    { id := freshPk (db.entries.map (fun x => x.id)),
      account := account.id, transaction := transaction,
      entry_id := some nid, amount := amount }
  set { db with entries := db.entries ++ [e] }

/-- `CashFlow.objects.create` (`models.py` 639-642): `save` runs
`full_clean`, whose `clean` stage always raises (see
`CashFlow.clean`), so no flow row is ever inserted. -/
def CashFlow.create (account : Account) (amount : Int) : PostM CashFlow := do
  let db ← get
  let f : CashFlow :=
    { id := freshPk (db.flows.map (fun x => x.id)),
      account := account, amount := amount }
  liftE (CashFlow.clean f)
  set { db with flows := db.flows ++ [f] }
  pure f

/-- `Split.objects.create` (`models.py` 739-742): `save` runs
`full_clean` and inserts the row. -/
def Split.create (entry_point exit_point : Option Account) (target : CashFlow)
    (description : String) : PostM Split := do
  let db ← get
  let s : Split :=
    { id := freshPk (db.split_rows.map (fun x => x.id)),
      entry_point := entry_point, exit_point := exit_point,
      target := target, description := description }
  liftE (Split.clean s)
  set { db with split_rows := db.split_rows ++ [s] }
  pure s

/-- `Transaction.save` (`models.py` 893-896): `full_clean` then insert
or update by primary key.  `full_clean` runs before the INSERT that
assigns the primary key, so during the initial save of a posting the
instance is primary-key-less and the split-set read inside `clean`
raises `ValueError`; when `save` is called on an already persisted row
(as `confirm` does), `clean` sees the attached splits.  Whether the row
is persisted is read off the state, which the model keeps in step with
primary-key assignment. -/
def Transaction.save (t : Transaction) : PostM Unit := do
  let db ← get
  let saved := db.transactions.any (fun (u : Transaction) => u.id == t.id)
  liftE (Transaction.clean saved t)
  if saved then
    set { db with transactions :=
            db.transactions.map (fun (u : Transaction) => if u.id == t.id then t else u) }
  else
    set { db with transactions := db.transactions ++ [t] }

/-- The assignment `transaction.split_set = splits` of the posting
functions: replace the split collection of the stored row. -/
def Transaction.assign_split_set (t : Transaction) (splits : List Split) :
    PostM Transaction := do
  let t1 := { t with splits := splits }
  let db ← get
  set { db with transactions :=
          db.transactions.map (fun (u : Transaction) => if u.id == t1.id then t1 else u) }
  pure t1

/-- The `except ValidationError` arm shared by the four posting
functions (`utils.py` 107-110 and analogues): if it were ever entered,
the handler would format its message with `_(u"...")` — a name
`simple_accounting/utils.py` never imports (no `ugettext` import) — and
so raise `NameError` instead of the documented `MalformedTransaction`.
In the four pipelines as written no `ValidationError` reaches the arm
(every run raises `AttributeError` or `ValueError` first), and
exceptions other than `ValidationError` are not caught and propagate
unchanged. -/
def exceptValidationError {α : Type} (e : PyErr) : PostM α :=
  match e with
  | PyErr.validationError => throw (PyErr.nameError "_")
  | e => throw e

/-- `register_split_transaction` (`utils.py` 53-128): build the
transaction, save it (validation runs here, on the still
primary-key-less instance, whose split-set read raises `ValueError` —
an exception the `except ValidationError` arm does not catch), attach
the splits, then write ledger entries: the source account first, then
per split the exit point (sign `+1` for `EXPENSE` else `-1`), the entry
point (sign `+1` for `INCOME` else `-1`) when the exit point is
present, and the target account.  A split with an exit point but no
entry point would raise `AttributeError` on `None.base_type` at the
entry-point write. -/
def register_split_transaction (source : CashFlow) (splits : List Split)
    (description : String) (issuer : Nat) : PostM Transaction := do
  let transaction ← tryCatch
    (do
      let db ← get
      let t0 : Transaction :=
        { id := freshPk (db.transactions.map (fun t => t.id)),
          description := description, issuer := issuer, source := source,
          splits := [], kind := none, is_confirmed := false }
      Transaction.save t0
      Transaction.assign_split_set t0 splits)
    exceptValidationError
  LedgerEntry.create source.account transaction.id (- source.amount)
  for split in splits do
    match split.exit_point with
    | some xp => do
        let sign : Int := if xp.kind == BaseType.expense then 1 else -1
        LedgerEntry.create xp transaction.id (sign * split.amount)
        match split.entry_point with
        | some ep => do
            let sign2 : Int := if ep.kind == BaseType.income then 1 else -1
            LedgerEntry.create ep transaction.id (sign2 * split.amount)
        | none => throw (PyErr.attributeError "base_type")
    | none => pure ()
    LedgerEntry.create split.target.account transaction.id split.amount
  pure transaction

/-- `register_transaction` (`utils.py` 131-223): source flow, save,
target flow, single external split, split attachment, then the four
ledger entries.  The very first step, `CashFlow.objects.create` for the
source flow, raises `AttributeError` (see `CashFlow.clean`), which the
`except ValidationError` arm does not catch. -/
def register_transaction (source_account exit_point entry_point target_account : Account)
    (amount : Int) (description : String) (issuer : Nat) : PostM Transaction := do
  let transaction ← tryCatch
    (do
      let db ← get
      let txId := freshPk (db.transactions.map (fun t => t.id))
      let source ← CashFlow.create source_account amount
      let t0 : Transaction :=
        { id := txId, description := description, issuer := issuer,
          source := source, splits := [], kind := none, is_confirmed := false }
      Transaction.save t0
      let target ← CashFlow.create target_account (- amount)
      let split ← Split.create (some entry_point) (some exit_point) target ""
      Transaction.assign_split_set t0 [split])
    exceptValidationError
  LedgerEntry.create source_account transaction.id (- amount)
  let sign : Int := if exit_point.kind == BaseType.expense then 1 else -1
  LedgerEntry.create exit_point transaction.id (sign * amount)
  let sign2 : Int := if entry_point.kind == BaseType.income then 1 else -1
  LedgerEntry.create entry_point transaction.id (sign2 * amount)
  LedgerEntry.create target_account transaction.id amount
  pure transaction

/-- `register_internal_transaction` (`utils.py` 226-306): save the
transaction (raising `ValueError` at the split-set read of the
primary-key-less instance), create one internal split per target flow
(`Split.objects.create(target=target)`, whose `clean` raises on
internal splits), attach them, then write the source entry and one
entry of amount `-target.amount` per target. -/
def register_internal_transaction (source : CashFlow) (targets : List CashFlow)
    (description : String) (issuer : Nat) : PostM Transaction := do
  let transaction ← tryCatch
    (do
      let db ← get
      let t0 : Transaction :=
        { id := freshPk (db.transactions.map (fun t => t.id)),
          description := description, issuer := issuer, source := source,
          splits := [], kind := none, is_confirmed := false }
      Transaction.save t0
      let mut splits : List Split := []
      for target in targets do
        let s ← Split.create none none target ""
        splits := splits ++ [s]
      Transaction.assign_split_set t0 splits)
    exceptValidationError
  LedgerEntry.create source.account transaction.id (- source.amount)
  for target in targets do
    LedgerEntry.create target.account transaction.id (- target.amount)
  pure transaction

/-- `register_simple_transaction` (`utils.py` 309-388): source flow,
save, target flow, one internal split, attachment, then the two ledger
entries.  As in `register_transaction`, the source-flow creation raises
`AttributeError` immediately. -/
def register_simple_transaction (source_account target_account : Account)
    (amount : Int) (description : String) (issuer : Nat) : PostM Transaction := do
  let transaction ← tryCatch
    (do
      let db ← get
      let txId := freshPk (db.transactions.map (fun t => t.id))
      let source ← CashFlow.create source_account amount
      let t0 : Transaction :=
        { id := txId, description := description, issuer := issuer,
          source := source, splits := [], kind := none, is_confirmed := false }
      Transaction.save t0
      let target ← CashFlow.create target_account (- amount)
      let split ← Split.create none none target ""
      Transaction.assign_split_set t0 [split])
    exceptValidationError
  LedgerEntry.create source_account transaction.id (- amount)
  LedgerEntry.create target_account transaction.id amount
  pure transaction

/-- `Transaction.confirm` (`models.py` 898-908): on an unconfirmed
transaction set the flag and call `save`, which re-runs `full_clean`;
on an already-confirmed transaction raise
`InvalidAccountingOperation`. -/
def Transaction.confirm (t : Transaction) : PostM Transaction := do
  if !t.is_confirmed then
    let t1 := { t with is_confirmed := true }
    Transaction.save t1
    pure t1
  else
    throw PyErr.invalidAccountingOperation

/-- A row of the `AccountSystem` model (`models.py` 308-322) together
with the transient `_root` instance attribute used by the `root`
property. -/
structure AccountSystem where
  id : Nat
  cached_root : Option Account
deriving DecidableEq, Repr

/-- `AccountSystem.root` (`models.py` 324-333).  With a warm `_root`
cache the property returns the cached account.  With a cold cache the
loop stores each root account it finds into `_root`, but the `raise
MalformedAccountTree` that follows the loop is unconditional (it is not
guarded by the search having failed), so the first access always
raises — while leaving the cache set whenever a root exists, so only a
later access can return it. -/
def AccountSystem.root (db : DB) (s : AccountSystem) :
    Except PyErr Account × AccountSystem :=
  match s.cached_root with
  | some r => (Except.ok r, s)
  | none =>
      let roots := db.accounts.filter (fun a => a.system == s.id && a.is_root)
      (Except.error PyErr.malformedAccountTree, { s with cached_root := roots.getLast? })

/-- `AccountSystem.__getitem__` (`models.py` 360-379): the method body
begins with `from simple_accounting.utils import get_account_from_path`,
but `simple_accounting/utils.py` defines no `get_account_from_path`
(that helper only exists in the sibling `accounting` app), so every
subscript access raises `ImportError` before the path or the root are
examined. -/
def AccountSystem.getItem (_db : DB) (_s : AccountSystem) (_path : String) :
    Except PyErr Account :=
  Except.error PyErr.moduleImportError

/-- `Account.clean` (`models.py` 520-556): parent-system agreement,
stock/flux separation (dereferencing `self.parent` without a null
guard, so a stock or flux account with no parent raises
`AttributeError`), the root-name discipline, and the separator ban in
names (the separator is the single character `/`, so substring
containment is character containment). -/
def Account.clean (parent : Option Account) (a : Account) : Except PyErr Unit := do
  match parent with
  | some p => if !(a.system == p.system) then throw PyErr.validationError else pure ()
  | none => pure ()
  if a.is_stock then
    match parent with
    | none => throw (PyErr.attributeError "is_stock")
    | some p =>
        if !(p.is_stock || p.is_root) then throw PyErr.validationError else pure ()
  if a.is_flux then
    match parent with
    | none => throw (PyErr.attributeError "is_flux")
    | some p =>
        if !(p.is_flux || p.is_root) then throw PyErr.validationError else pure ()
  if a.is_root then
    if !(a.name == "") then throw PyErr.validationError
  if a.name == "" then
    if !a.is_root then throw PyErr.validationError
  if a.name.contains '/' then throw PyErr.validationError

/-- `Account.objects.create` (`models.py` 558-561): `save` runs
`full_clean` then inserts. -/
def Account.create (system : Nat) (parent : Option Account) (name : String)
    (kind : BaseType) (is_placeholder : Bool) : PostM Account := do
  let db ← get
  let a : Account :=
    { id := freshPk (db.accounts.map (fun x => x.id)),
      system := system, parent := parent.map (fun p => p.id),
      name := name, kind := kind, is_placeholder := is_placeholder }
  liftE (Account.clean parent a)
  set { db with accounts := db.accounts ++ [a] }
  pure a

/-- `AccountSystem.add_account` (`models.py` 394-410): resolve the
parent through `self[parent_path]` (which raises `ImportError`, see
`AccountSystem.getItem`), then create the child account. -/
def AccountSystem.add_account (s : AccountSystem) (parent_path name : String)
    (kind : BaseType) (is_placeholder : Bool) : PostM Unit := do
  let db ← get
  let parent ← liftE (AccountSystem.getItem db s parent_path)
  let _ ← Account.create s.id (some parent) name kind is_placeholder
  pure ()

/-- `AccountSystem.add_root_account` (`models.py` 412-416): delegate to
`add_account` with the empty parent path, the empty name, the `ROOT`
kind and the placeholder flag set. -/
def AccountSystem.add_root_account (s : AccountSystem) : PostM Unit :=
  AccountSystem.add_account s "" "" BaseType.root true

end SimpleAccounting

namespace Accounting

/-- Concrete tree: a root account. -/
def acctRoot : Account := { id := 1, parent := none, name := "" }

/-- Concrete tree: depth-one asset account `spam` under the root. -/
def acctSpam : Account := { id := 2, parent := some 1, name := "spam" }

/-- Concrete tree: depth-two account `bar` under `spam`. -/
def acctBar : Account := { id := 3, parent := some 2, name := "bar" }

/-- Concrete tree of three accounts: `/`, `/spam`, `/spam/bar`. -/
def acctTree : List Account := [acctRoot, acctSpam, acctBar]

/-- Second concrete tree: its root. -/
def acctRootB : Account := { id := 10, parent := none, name := "" }

/-- Second concrete tree: child `a` of the root. -/
def acctA : Account := { id := 11, parent := some 10, name := "a" }

/-- Second concrete tree of two accounts: `/` and `/a`. -/
def acctTreeB : List Account := [acctRootB, acctA]

end Accounting

namespace SimpleAccounting

/-- Concrete system 1: its root account (type `ROOT`, placeholder,
empty name). -/
def rootAcc : Account :=
  { id := 1, system := 1, parent := none, name := "",
    kind := BaseType.root, is_placeholder := false }

/-- Concrete system 1: non-placeholder asset account `wallet` under the
root. -/
def wallet : Account :=
  { id := 2, system := 1, parent := some 1, name := "wallet",
    kind := BaseType.asset, is_placeholder := false }

/-- Concrete system 1: non-placeholder asset account `cash` under the
root. -/
def cash : Account :=
  { id := 3, system := 1, parent := some 1, name := "cash",
    kind := BaseType.asset, is_placeholder := false }

/-- Concrete system 1: placeholder asset account `grp` under the
root. -/
def grp : Account :=
  { id := 4, system := 1, parent := some 1, name := "grp",
    kind := BaseType.asset, is_placeholder := true }

/-- Initial state: the four accounts of system 1, no flows, no splits,
no transactions, no ledger entries. -/
def db0 : DB :=
  { accounts := [rootAcc, wallet, cash, grp], flows := [], split_rows := [],
    transactions := [], entries := [] }

/-- The account system owning the accounts of `db0`, with a cold
`_root` cache. -/
def sys1 : AccountSystem := { id := 1, cached_root := none }

/-- A state with no accounts at all. -/
def dbEmpty : DB :=
  { accounts := [], flows := [], split_rows := [], transactions := [],
    entries := [] }

/-- An account system whose tree is empty, with a cold cache. -/
def sysEmpty : AccountSystem := { id := 2, cached_root := none }

/-- Source cash flow: 10.5 (105000 fixed-point units) out of
`wallet`. -/
def flowWallet : CashFlow := { id := 1, account := wallet, amount := (105000 : Int) }

/-- Target cash flow: 10.5 into `cash`. -/
def flowCash : CashFlow := { id := 2, account := cash, amount := (-105000 : Int) }

/-- Unbalanced source cash flow: 5 out of `wallet`. -/
def flowWallet5 : CashFlow := { id := 3, account := wallet, amount := (50000 : Int) }

/-- Source cash flow of amount zero on `wallet`. -/
def flowWallet0 : CashFlow := { id := 4, account := wallet, amount := (0 : Int) }

/-- Target cash flow: 5 into `cash` (used to build unbalanced
inputs). -/
def flowCash5 : CashFlow := { id := 5, account := cash, amount := (-50000 : Int) }

/-- An internal split moving 10.5 to `cash`. -/
def splitCash : Split :=
  { id := 1, entry_point := none, exit_point := none, target := flowCash,
    description := "" }

/-- An internal split moving 5 to `cash`. -/
def splitCash5 : Split :=
  { id := 2, entry_point := none, exit_point := none, target := flowCash5,
    description := "" }

/-- A persisted, balanced, unconfirmed simple transaction: 10.5 from
`wallet` to `cash` through one internal split. -/
def txSimple : Transaction :=
  { id := 1, description := "d", issuer := 7, source := flowWallet,
    splits := [splitCash], kind := none, is_confirmed := false }

/-- The same transaction already confirmed. -/
def txConfirmed : Transaction := { txSimple with is_confirmed := true }

/-- State holding the persisted simple transaction and its flows. -/
def dbTx : DB :=
  { db0 with flows := [flowWallet, flowCash], split_rows := [splitCash],
             transactions := [txSimple] }

/-- State in which `wallet` already has one ledger entry whose global
primary key is 7 and whose per-ledger serial is 1. -/
def dbEntry : DB :=
  { db0 with entries :=
      [{ id := 7, account := 2, transaction := 1, entry_id := some 1,
         amount := (105000 : Int) }] }

/-- A transaction with an empty split collection. -/
def txZeroSplits : Transaction :=
  { id := 5, description := "d", issuer := 7, source := flowWallet,
    splits := [], kind := none, is_confirmed := false }

/-- Target cash flow of 10.5 into the placeholder account `grp`
(an input violating the placeholder invariant). -/
def flowGrp : CashFlow := { id := 6, account := grp, amount := (-105000 : Int) }

end SimpleAccounting

open Accounting SimpleAccounting

/-- Claim C1: every transaction returned by the four posting functions
conserves money, and unbalanced inputs are rejected with
`MalformedTransaction`.  The code contradicts this: the source-flow
creation of `register_simple_transaction` raises `AttributeError` (the
`CashFlow.clean` validator reads the undefined attribute `is_stock`),
so a perfectly balanced posting of 10.5 between two stock accounts
crashes and writes nothing; `register_split_transaction` saves the
transaction before attaching its splits, and `full_clean` of the
primary-key-less instance raises `ValueError` at the split-set read —
for a balanced and for an unbalanced input alike — so no input is ever
accepted and no unbalanced input is ever rejected with
`MalformedTransaction`. -/
theorem C1_posting_conservation_code_bug :
    runPost (register_simple_transaction wallet cash (105000 : Int) "d" 7) db0
      = (Except.error (PyErr.attributeError "is_stock"), db0)
  ∧ runPost (register_split_transaction flowWallet [splitCash] "d" 7) db0
      = (Except.error PyErr.valueError, db0)
  ∧ (runPost (register_split_transaction flowWallet0 [splitCash5] "d" 7) db0).1
      = Except.error PyErr.valueError :=
  ⟨rfl, rfl, rfl⟩

/-- Claim C2: each new ledger entry receives
`entry_id = 1 + max(existing entry_ids)`, or 1 for an empty ledger.
The code contradicts this: `next_entry_id_for_ledger` raises
`ValueError` on an account with no entries (`max` of an empty
sequence, no fallback to 1), and on a non-empty ledger it maximises
over the global primary key `id` instead of `entry_id` — an account
whose single entry has primary key 7 and `entry_id` 1 is assigned 8
where the claim requires 2. -/
theorem C2_entry_id_numbering_code_bug :
    LedgerEntry.next_entry_id_for_ledger db0 wallet = Except.error PyErr.valueError
  ∧ LedgerEntry.next_entry_id_for_ledger dbEntry wallet = Except.ok 8 :=
  ⟨rfl, rfl⟩

/-- Claim C3: invariant violations surface as `MalformedTransaction`
with no partial state.  The code contradicts the classification half:
posting to the placeholder account `grp` through
`register_simple_transaction` fails with `AttributeError` (raised
before any placeholder check can run), and through
`register_internal_transaction` it fails with `ValueError` at the
split-set read of the primary-key-less transaction during its initial
save — in neither case does the caller receive `MalformedTransaction`.
No partial state is left, but only because every posting aborts before
its first write. -/
theorem C3_validation_error_classification_code_bug :
    runPost (register_simple_transaction wallet grp (105000 : Int) "d" 7) db0
      = (Except.error (PyErr.attributeError "is_stock"), db0)
  ∧ runPost (register_internal_transaction flowWallet [flowGrp] "d" 7) db0
      = (Except.error PyErr.valueError, db0) :=
  ⟨rfl, rfl⟩

/-- Claim C4: `register_simple_transaction` on two fresh stock accounts
with amount 10.5 yields two ledger entries and balances -10.5 and
10.5.  The code contradicts this: the call raises `AttributeError`
inside `CashFlow.clean` before anything is persisted, so the state is
unchanged, zero ledger entries exist and both balances remain 0. -/
theorem C4_simple_transaction_scenario_code_bug :
    (runPost (register_simple_transaction wallet cash (105000 : Int) "payment" 7) db0).1
      = Except.error (PyErr.attributeError "is_stock")
  ∧ (runPost (register_simple_transaction wallet cash (105000 : Int) "payment" 7) db0).2.entries
      = []
  ∧ Account.balance
      (runPost (register_simple_transaction wallet cash (105000 : Int) "payment" 7) db0).2
      wallet = 0
  ∧ Account.balance
      (runPost (register_simple_transaction wallet cash (105000 : Int) "payment" 7) db0).2
      cash = 0 :=
  ⟨rfl, rfl, rfl, rfl⟩

/-- Claim C5: for every non-root account,
`tree.resolve(account.path) == account` at every depth.  The code
contradicts this twice over: reading `path` on any non-root account
raises `TypeError` (the property recursion calls the property object
itself), and even resolving a correct hand-written two-component path
returns `None` because the recursive call of `get_account_from_path`
discards its result.  Depth-one resolution works, which shows the
failure is specific to the two bugs. -/
theorem C5_path_roundtrip_code_bug :
    Accounting.Account.path acctSpam = Except.error PyErr.typeError
  ∧ Accounting.Account.path acctBar = Except.error PyErr.typeError
  ∧ get_account_from_path acctTree "/spam/bar" acctRoot = Except.ok none
  ∧ get_account_from_path acctTree "/spam" acctRoot = Except.ok (some acctSpam) :=
  ⟨rfl, rfl, rfl, rfl⟩

/-- Claim C6: `resolve("//a")`, `resolve("a")` and `resolve("/a/")` all
fail with the malformed-path error; `resolve("/")` returns the root;
`resolve(" /a ")` behaves as `resolve("/a")`.  The code contradicts the
first case: `"//a"` passes `_validate_account_path` (which only checks
the ends of the string) and then fails the child lookup on the empty
component, raising `DoesNotExist` — a not-found error, where the claim
and the docstring of the function require the malformed-path
`ValueError`.  The remaining four behaviours hold as claimed. -/
theorem C6_malformed_path_classification_code_bug :
    get_account_from_path acctTreeB "//a" acctRootB = Except.error PyErr.doesNotExist
  ∧ get_account_from_path acctTreeB "a" acctRootB = Except.error PyErr.valueError
  ∧ get_account_from_path acctTreeB "/a/" acctRootB = Except.error PyErr.valueError
  ∧ get_account_from_path acctTreeB "/" acctRootB = Except.ok (some acctRootB)
  ∧ get_account_from_path acctTreeB " /a " acctRootB = Except.ok (some acctA) :=
  ⟨rfl, rfl, rfl, rfl, rfl⟩

/-- Claim C7: `root()` returns the unique parentless account whenever
one exists, including on the first access, and raises the
malformed-tree error exactly when none exists.  The code contradicts
this: on a tree that does contain a root, the first (cold-cache) access
stores the root in the `_root` cache but then raises
`MalformedAccountTree` unconditionally; only the second access returns
the root. -/
theorem C7_root_first_access_code_bug :
    (AccountSystem.root db0 sys1).1 = Except.error PyErr.malformedAccountTree
  ∧ (AccountSystem.root db0 sys1).2.cached_root = some rootAcc
  ∧ (AccountSystem.root db0 (AccountSystem.root db0 sys1).2).1 = Except.ok rootAcc :=
  ⟨rfl, rfl, rfl⟩

/-- Claim C8: `add_root_account()` succeeds on an empty tree and fails
with the already-exists error when a root is present.  The code
contradicts both halves: every call goes through
`AccountSystem.__getitem__`, whose from-import of
`get_account_from_path` from `simple_accounting.utils` names a symbol
that module does not define, so the call raises `ImportError` and
creates nothing — on the empty tree and on a tree that already has a
root alike. -/
theorem C8_add_root_account_code_bug :
    runPost (AccountSystem.add_root_account sysEmpty) dbEmpty
      = (Except.error PyErr.moduleImportError, dbEmpty)
  ∧ (runPost (AccountSystem.add_root_account sys1) db0).1
      = Except.error PyErr.moduleImportError :=
  ⟨rfl, rfl⟩

/-- Claim C9: `confirm()` flips `is_confirmed` from false to true
exactly once, and re-confirming raises `InvalidAccountingOperation`.
The code contradicts the first half: confirming a persisted, balanced,
unconfirmed simple transaction calls `save`, which re-runs
`Transaction.clean`; the exit-point check dereferences
`split.exit_point.system` on the internal split and raises
`AttributeError`, so the transaction is never stored as confirmed.
The already-confirmed half behaves as claimed. -/
theorem C9_confirm_code_bug :
    runPost (Transaction.confirm txSimple) dbTx
      = (Except.error (PyErr.attributeError "system"), dbTx)
  ∧ (runPost (Transaction.confirm txConfirmed) dbTx).1
      = Except.error PyErr.invalidAccountingOperation :=
  ⟨rfl, rfl⟩

/-- Claim C10: a transaction with an empty split collection classifies
as `is_split = false`, `is_internal = true` (the all-splits-internal
loop ranges over no splits) and hence `is_simple = true`.  This is
exactly what the three predicates compute. -/
theorem C10_zero_split_classification (t : SimpleAccounting.Transaction)
    (h : t.splits = []) :
    t.is_split = false ∧ t.is_internal = true ∧ t.is_simple = true := by
  simp [Transaction.is_split, Transaction.is_internal, Transaction.is_simple, h]

/-- Witness for claim C10 at a concrete zero-split transaction. -/
theorem C10_zero_split_classification_witness :
    SimpleAccounting.txZeroSplits.splits = []
  ∧ (SimpleAccounting.txZeroSplits.is_split = false
     ∧ SimpleAccounting.txZeroSplits.is_internal = true
     ∧ SimpleAccounting.txZeroSplits.is_simple = true) :=
  ⟨rfl, C10_zero_split_classification SimpleAccounting.txZeroSplits rfl⟩
